import Mathlib

/-!
# Verification of the Seoul safety-data pipeline

Shallow embedding of the parts of the SheSawLabs/server repository that the
frozen claims are about: the dong-name normalizer and offender distribution of
`src/analysis/safety_analyzer.py`, the CSV export of
`src/analysis/report_generator.py`, the retrying HTTP client of
`src/utils/api_utils.py`, the reverse geocoder of `src/utils/geocoding.py`,
the offender scheduler's resume-page computation of
`src/scheduler/sexual_offender_scheduler.py`, the simulated-data substitution
of `src/safety_score/dong_safety_calculator.py`, and the CPTED scoring engine
of `src/safety_score/cpted_calculator.py`.

Strings are modelled as `List Char`, Python ints as `ℕ`, Python floats as `ℝ`
(exact real arithmetic; the claims under scrutiny do not hinge on binary
floating-point rounding), dicts as association lists, and fallible calls as
explicit result types.
-/

namespace SafetyServer

/-! ## Dong-name normalization
`SafetyAnalyzer.normalize_dong_name` (src/analysis/safety_analyzer.py:26-37):
on a falsy (empty) name return `""`; otherwise `re.sub(r'\d+', '', name)`,
then `.replace('가동', '동')`, then `.strip()`. -/

/-- The character class of the regex `\d` as it applies to the dong names this
code handles: a decimal digit. -/
def pyIsDigit (c : Char) : Bool := c.isDigit

/-- `re.sub(r'\d+', '', s)`: delete every decimal digit (deleting every
maximal digit run deletes exactly the digit characters). -/
def removeDigits (s : List Char) : List Char := s.filter (fun c => !pyIsDigit c)

/-- Python `str.replace('가동', '동')`: scan left to right, replacing each
non-overlapping occurrence of `가동` with `동`. -/
def replaceGadong : List Char → List Char
  | [] => []
  | [c] => [c]
  | a :: b :: rest =>
    if a = '가' ∧ b = '동' then '동' :: replaceGadong rest
    else a :: replaceGadong (b :: rest)

/-- Whether the string still contains an occurrence of `가동`. -/
def containsGadong : List Char → Bool
  | [] => false
  | [_] => false
  | a :: b :: rest => (a = '가' && b = '동') || containsGadong (b :: rest)

/-- Python `str.strip()`: drop leading and trailing whitespace. -/
def pyStrip (s : List Char) : List Char :=
  ((s.dropWhile Char.isWhitespace).reverse.dropWhile Char.isWhitespace).reverse

/-- `SafetyAnalyzer.normalize_dong_name`. -/
def normalize_dong_name (s : List Char) : List Char :=
  if s = [] then []
  else pyStrip (replaceGadong (removeDigits s))

theorem mem_replaceGadong {c : Char} :
    ∀ l : List Char, c ∈ replaceGadong l → c ∈ l ∨ c = '동'
  | [], h => by simp [replaceGadong] at h
  | [a], h => by
    simp only [replaceGadong, List.mem_singleton] at h
    exact Or.inl (by simp [h])
  | a :: b :: rest, h => by
    simp only [replaceGadong] at h
    split at h
    · rcases List.mem_cons.mp h with h1 | h2
      · exact Or.inr h1
      · rcases mem_replaceGadong rest h2 with h3 | h4
        · exact Or.inl (by simp [h3])
        · exact Or.inr h4
    · rcases List.mem_cons.mp h with h1 | h2
      · exact Or.inl (by simp [h1])
      · rcases mem_replaceGadong (b :: rest) h2 with h3 | h4
        · exact Or.inl (List.mem_cons_of_mem _ h3)
        · exact Or.inr h4

theorem replaceGadong_of_not_contains :
    ∀ l : List Char, containsGadong l = false → replaceGadong l = l
  | [], _ => rfl
  | [a], _ => rfl
  | a :: b :: rest, h => by
    simp only [containsGadong, Bool.or_eq_false_iff, Bool.and_eq_false_iff] at h
    simp only [replaceGadong]
    rw [if_neg, replaceGadong_of_not_contains (b :: rest) h.2]
    rintro ⟨ha, hb⟩
    rcases h.1 with h1 | h1 <;> simp [ha, hb] at h1

theorem dropWhile_head_false {p : Char → Bool} :
    ∀ {l c t}, List.dropWhile p l = c :: t → p c = false := by
  intro l
  induction l with
  | nil => intro c t h; simp at h
  | cons a l ih =>
    intro c t h
    by_cases hp : p a
    · rw [List.dropWhile_cons_of_pos hp] at h
      exact ih h
    · rw [List.dropWhile_cons_of_neg hp] at h
      cases h
      exact Bool.not_eq_true _ ▸ (by simpa using hp)

theorem dropWhile_of_head_false {p : Char → Bool} {l : List Char}
    (h : ∀ c t, l = c :: t → p c = false) : List.dropWhile p l = l := by
  cases l with
  | nil => rfl
  | cons c t => exact List.dropWhile_cons_of_neg (by simp [h c t rfl])

theorem dropWhile_idem (p : Char → Bool) (l : List Char) :
    List.dropWhile p (List.dropWhile p l) = List.dropWhile p l := by
  apply dropWhile_of_head_false
  intro c t h
  exact dropWhile_head_false h

theorem mem_pyStrip {c : Char} {l : List Char} (h : c ∈ pyStrip l) : c ∈ l := by
  unfold pyStrip at h
  rw [List.mem_reverse] at h
  have h1 := (List.dropWhile_suffix Char.isWhitespace).subset h
  rw [List.mem_reverse] at h1
  exact (List.dropWhile_suffix Char.isWhitespace).subset h1

theorem pyStrip_idem (l : List Char) : pyStrip (pyStrip l) = pyStrip l := by
  set w := Char.isWhitespace with hw
  set A := List.dropWhile w l with hA
  set B := List.dropWhile w A.reverse with hB
  have hstrip : pyStrip l = B.reverse := rfl
  have hBsuff : B <:+ A.reverse := List.dropWhile_suffix w
  have hBpre : B.reverse <+: A := by
    have h : B.reverse <+: A.reverse.reverse := List.reverse_prefix.mpr hBsuff
    rwa [List.reverse_reverse] at h
  have h1 : List.dropWhile w B.reverse = B.reverse := by
    apply dropWhile_of_head_false
    intro c t h
    rcases hBpre with ⟨rest, hrest⟩
    rw [h] at hrest
    exact dropWhile_head_false (l := l) (by rw [← hA, ← hrest]; rfl)
  have h2 : List.dropWhile w B = B := dropWhile_idem w A.reverse
  rw [hstrip]
  unfold pyStrip
  rw [h1, List.reverse_reverse, h2]

theorem normalize_no_digit {c : Char} {s : List Char}
    (h : c ∈ normalize_dong_name s) : pyIsDigit c = false := by
  unfold normalize_dong_name at h
  split at h
  · simp at h
  · have h1 := mem_pyStrip h
    rcases mem_replaceGadong _ h1 with h2 | h2
    · have := List.of_mem_filter h2
      simpa using this
    · subst h2; decide

/-- **C5** is false as stated: `normalize_dong_name` is not idempotent.  The
`가동 → 동` replacement can itself create a new `가동` occurrence:
`가가동 → 가동 → 동`. -/
theorem normalize_dong_name_not_idempotent :
    normalize_dong_name (normalize_dong_name "가가동".data) ≠
      normalize_dong_name "가가동".data := by decide

/-- **C5** (amended): `normalize_dong_name` is idempotent on every input whose
normalized form contains no residual `가동` occurrence (the replacement step
can itself create one, as `가가동` shows); in particular `역삼1동` and `역삼동`
normalize to the same string. -/
theorem normalize_dong_name_idem (s : List Char)
    (h : containsGadong (normalize_dong_name s) = false) :
    normalize_dong_name (normalize_dong_name s) = normalize_dong_name s ∧
      normalize_dong_name "역삼1동".data = normalize_dong_name "역삼동".data := by
  refine ⟨?_, by decide⟩
  by_cases hnil : normalize_dong_name s = []
  · rw [hnil]; rfl
  · have hs : s ≠ [] := by
      intro hs; rw [hs] at hnil; exact hnil rfl
    have hform : normalize_dong_name s = pyStrip (replaceGadong (removeDigits s)) := by
      unfold normalize_dong_name; rw [if_neg hs]
    conv_lhs => rw [normalize_dong_name, if_neg hnil]
    have hdig : removeDigits (normalize_dong_name s) = normalize_dong_name s := by
      unfold removeDigits
      apply List.filter_eq_self.mpr
      intro c hc
      simp [normalize_no_digit hc]
    rw [hdig, replaceGadong_of_not_contains _ h, hform, pyStrip_idem]

/-- Concrete instantiation of the amended C5 idempotence at `역삼동`. -/
theorem normalize_dong_name_idem_witness :
    normalize_dong_name (normalize_dong_name "역삼동".data) =
        normalize_dong_name "역삼동".data ∧
      normalize_dong_name "역삼1동".data = normalize_dong_name "역삼동".data :=
  normalize_dong_name_idem "역삼동".data (by decide)

/-! ## Offender-scheduler resume page
`SexualOffenderScheduler.collect_batch`
(src/scheduler/sexual_offender_scheduler.py:116-118):
```
completed_pages = (current_count // 1000) + 1
start_page = completed_pages if current_count % 1000 == 0 else completed_pages + 1
```
The provider pages are 1000 records each (`page_size = 1000`). -/

/-- The start page `collect_batch` resumes from, given the persisted record
count. -/
def nextStartPage (current_count : ℕ) : ℕ :=
  if current_count % 1000 = 0 then current_count / 1000 + 1
  else (current_count / 1000 + 1) + 1

/-- **C8** is false as stated: at `current_count = 500` the scheduler resumes
from page 2, not `⌊500 / 1000⌋ + 1 = 1`. -/
theorem nextStartPage_counterexample : nextStartPage 500 ≠ 500 / 1000 + 1 := by
  decide

/-- **C8** (amended): the scheduler's batch pass computes the page to resume
from as `⌈current_count / page_size⌉ + 1` with `page_size = 1000`, which
coincides with `⌊current_count / page_size⌋ + 1` exactly when the count is a
multiple of the page size. -/
theorem nextStartPage_eq (current_count : ℕ) :
    nextStartPage current_count = (current_count + 999) / 1000 + 1 := by
  unfold nextStartPage
  split <;> omega

/-! ## Reverse-geocoder district extraction
`KakaoGeocoder.coordinate_to_address` (src/utils/geocoding.py:102,110):
`district = road_address.get('region_2depth_name', '').replace('구', '') + '구'`.
Since the pattern is the single character `구`, the replace deletes every
occurrence of `구` before the single `구` is appended. -/

/-- The district string returned to the caller, as a function of the
provider's `region_2depth_name` field. -/
def extract_district (region_2depth_name : List Char) : List Char :=
  (region_2depth_name.filter (fun c => c ≠ '구')) ++ ['구']

/-- **C10**: the returned district is the provider field with every `구`
deleted and one `구` appended; whenever the field contains `구` in a non-final
position the result differs from the field, and concretely `구로구` becomes
`로구`. -/
theorem extract_district_mangles (l : List Char) (h : '구' ∈ l.dropLast) :
    extract_district l ≠ l ∧
      extract_district "구로구".data = "로구".data ∧
      "로구".data ≠ "구로구".data := by
  refine ⟨?_, by decide, by decide⟩
  intro heq
  have hne : l ≠ [] := by
    intro hl; rw [hl] at h; simp at h
  have hsplit : l.dropLast ++ [l.getLast hne] = l := List.dropLast_append_getLast hne
  unfold extract_district at heq
  have heq2 : l.filter (fun c => c ≠ '구') ++ ['구'] =
      l.dropLast ++ [l.getLast hne] := heq.trans hsplit.symm
  have hlen : ([('구' : Char)]).length = ([l.getLast hne]).length := rfl
  have hfil : l.filter (fun c => c ≠ '구') = l.dropLast :=
    (List.append_inj' heq2 hlen).1
  rw [← hfil] at h
  have := List.of_mem_filter h
  simp at this

/-- Concrete instantiation of C10 at the provider district `구로구`. -/
theorem extract_district_mangles_witness :
    extract_district "구로구".data ≠ "구로구".data ∧
      extract_district "구로구".data = "로구".data ∧
      "로구".data ≠ "구로구".data :=
  extract_district_mangles "구로구".data (by decide)

/-! ## CSV export
`SafetyReportGenerator.export_to_csv` (src/analysis/report_generator.py:104-131):
empty input prints an error and writes nothing; otherwise a `csv.DictWriter`
over a fixed `fieldnames` list writes the header row and then one row per
score dict, each row listing, in `fieldnames` order, the dict's value for
that field (`csv.DictWriter` emits `restval` — the empty string — for a
missing key, and row order never depends on the dict's own key order). -/

/-- The fixed `fieldnames` list of `export_to_csv`. -/
def csvFieldnames : List String :=
  ["district", "dong", "total_score", "grade",
   "natural_surveillance", "access_control", "territoriality",
   "maintenance", "activity_support",
   "cctv_count", "streetlight_count", "police_station_count",
   "female_safety_house_count", "sexual_offender_count", "delivery_box_count"]

/-- A score record: a Python dict of stringified cell values, modelled as an
association list in insertion order. -/
def lookupField (record : List (String × String)) (field : String) : String :=
  (record.lookup field).getD ""

/-- The cells `csv.DictWriter.writerow` emits for one record. -/
def rowOf (record : List (String × String)) : List String :=
  csvFieldnames.map (lookupField record)

/-- `export_to_csv`: `none` models the early return on empty input; otherwise
the emitted CSV, as its list of rows. -/
def export_to_csv (safety_scores : List (List (String × String))) :
    Option (List (List String)) :=
  if safety_scores.isEmpty then none
  else some (csvFieldnames :: safety_scores.map rowOf)

/-- **C2** is false as stated: the fixed schema enumerated by the claim —
district, dong, total_score, grade, five sub-scores, six facility counts —
has 15 columns, and that is what the export writes; it does not match any
14-column schema. -/
theorem export_to_csv_not_14_columns :
    (export_to_csv [[("district", "강남구")]]).map (fun rows => rows.map List.length) =
        some [15, 15] ∧
      (15 : ℕ) ≠ 14 := by decide

/-- **C2** (amended): for every non-empty input the export writes the header
and rows in the fixed 15-column order — district, dong, total_score, grade,
the five CPTED sub-scores, then the six facility counts — and a row depends
only on the key-to-value mapping of its record, not on the key ordering
inside it. -/
theorem export_to_csv_schema (safety_scores : List (List (String × String)))
    (h : safety_scores ≠ []) :
    export_to_csv safety_scores = some (csvFieldnames :: safety_scores.map rowOf) ∧
      csvFieldnames =
        ["district", "dong", "total_score", "grade",
         "natural_surveillance", "access_control", "territoriality",
         "maintenance", "activity_support",
         "cctv_count", "streetlight_count", "police_station_count",
         "female_safety_house_count", "sexual_offender_count",
         "delivery_box_count"] ∧
      ∀ r₁ r₂ : List (String × String),
        (∀ k, r₁.lookup k = r₂.lookup k) → rowOf r₁ = rowOf r₂ := by
  refine ⟨?_, rfl, ?_⟩
  · unfold export_to_csv
    rw [if_neg (by simpa using h)]
  · intro r₁ r₂ hk
    unfold rowOf
    apply List.map_congr_left
    intro f _
    unfold lookupField
    rw [hk f]

/-- Concrete instantiation of the amended C2 on a one-record input whose keys
are listed in reversed order. -/
theorem export_to_csv_schema_witness :
    export_to_csv [[("dong", "역삼동"), ("district", "강남구")]] =
        some (csvFieldnames :: [[("dong", "역삼동"), ("district", "강남구")]].map rowOf) ∧
      csvFieldnames =
        ["district", "dong", "total_score", "grade",
         "natural_surveillance", "access_control", "territoriality",
         "maintenance", "activity_support",
         "cctv_count", "streetlight_count", "police_station_count",
         "female_safety_house_count", "sexual_offender_count",
         "delivery_box_count"] ∧
      ∀ r₁ r₂ : List (String × String),
        (∀ k, r₁.lookup k = r₂.lookup k) → rowOf r₁ = rowOf r₂ :=
  export_to_csv_schema [[("dong", "역삼동"), ("district", "강남구")]] (by decide)

/-! ## Retrying HTTP client
`APIClient.make_request` (src/utils/api_utils.py:42-95): a `for attempt in
range(max_retries)` loop; each iteration issues one HTTP request; status 200
returns the parsed JSON (or `None` on a JSON decode error); status 429 sleeps
and continues; any other status logs the error and — the branch has no
`return`/`break` — falls through to the next iteration, exactly like a
timeout or connection error; when the loop exhausts, `None` is returned. -/

/-- The outcome the environment supplies to one HTTP attempt.  `body = none`
on a 200 models an invalid-JSON payload. -/
inductive HttpResult (α : Type) where
  | response (status : ℕ) (body : Option α)
  | timeout
  | connError
  deriving DecidableEq

/-- The attempt loop of `make_request`: `n` attempts remain and `k` requests
have been issued so far.  Returns the call's result and the total number of
HTTP requests issued. -/
def makeRequestAux {α : Type} (outcomes : ℕ → HttpResult α) :
    ℕ → ℕ → Option α × ℕ
  | 0, k => (none, k)
  | n + 1, k =>
    match outcomes k with
    | .response status body =>
      if status = 200 then (body, k + 1)
      else makeRequestAux outcomes n (k + 1)
    | .timeout => makeRequestAux outcomes n (k + 1)
    | .connError => makeRequestAux outcomes n (k + 1)

/-- `APIClient.make_request`, parameterized by the per-attempt outcomes. -/
def make_request {α : Type} (max_retries : ℕ) (outcomes : ℕ → HttpResult α) :
    Option α × ℕ :=
  makeRequestAux outcomes max_retries 0

/-- An outcome after which the loop proceeds to the next attempt: any
non-200 status (429 included), a timeout, or a connection error. -/
def retriable {α : Type} : HttpResult α → Prop
  | .response status _ => status ≠ 200
  | .timeout => True
  | .connError => True

/-- Outcome schedule refuting C3: a 500 response on the first attempt, then a
valid 200 response. -/
def ocCex : ℕ → HttpResult ℕ :=
  fun k => if k = 0 then .response 500 none else .response 200 (some 7)

/-- **C3** is false as stated: after the HTTP 500 on the first attempt,
`make_request` issues a second request (two requests in total, where the claim
allows only the one that received the 500) and even returns its payload. -/
theorem make_request_retries_counterexample :
    ocCex 0 = .response 500 none ∧ make_request 3 ocCex = (some 7, 2) := by
  constructor <;> rfl

theorem makeRequestAux_exhaust {α : Type} (outcomes : ℕ → HttpResult α) :
    ∀ n k, (∀ j, j < n → retriable (outcomes (k + j))) →
      makeRequestAux outcomes n k = (none, k + n) := by
  intro n
  induction n with
  | zero => intro k _; simp [makeRequestAux]
  | succ n ih =>
    intro k h
    have h0 : retriable (outcomes k) := by simpa using h 0 (Nat.succ_pos n)
    have hrest : ∀ j, j < n → retriable (outcomes (k + 1 + j)) := by
      intro j hj
      have := h (j + 1) (by omega)
      rwa [show k + (j + 1) = k + 1 + j by omega] at this
    cases hoc : outcomes k with
    | response status body =>
      rw [hoc] at h0
      simp only [makeRequestAux, hoc]
      rw [if_neg h0, ih (k + 1) hrest]
      congr 1
      omega
    | timeout =>
      simp only [makeRequestAux, hoc]
      rw [ih (k + 1) hrest]
      congr 1
      omega
    | connError =>
      simp only [makeRequestAux, hoc]
      rw [ih (k + 1) hrest]
      congr 1
      omega

theorem makeRequestAux_success {α : Type} (outcomes : ℕ → HttpResult α)
    (body : Option α) :
    ∀ n k m, m < n → (∀ j, j < m → retriable (outcomes (k + j))) →
      outcomes (k + m) = .response 200 body →
      makeRequestAux outcomes n k = (body, k + m + 1) := by
  intro n
  induction n with
  | zero => intro k m hm; omega
  | succ n ih =>
    intro k m hm h hsucc
    cases m with
    | zero =>
      simp only [Nat.add_zero] at hsucc
      simp [makeRequestAux, hsucc]
    | succ m =>
      have h0 : retriable (outcomes k) := by simpa using h 0 (Nat.succ_pos m)
      have hrest : ∀ j, j < m → retriable (outcomes (k + 1 + j)) := by
        intro j hj
        have := h (j + 1) (by omega)
        rwa [show k + (j + 1) = k + 1 + j by omega] at this
      have hsucc' : outcomes (k + 1 + m) = .response 200 body := by
        rwa [show k + (m + 1) = k + 1 + m by omega] at hsucc
      have hrec := ih (k + 1) m (by omega) hrest hsucc'
      cases hoc : outcomes k with
      | response status b =>
        rw [hoc] at h0
        simp only [makeRequestAux, hoc]
        rw [if_neg h0, hrec]
        congr 1
        omega
      | timeout =>
        simp only [makeRequestAux, hoc]
        rw [hrec]
        congr 1
        omega
      | connError =>
        simp only [makeRequestAux, hoc]
        rw [hrec]
        congr 1
        omega

/-- **C3** (amended): a non-200/non-429 response is logged but the loop simply
moves on to the next attempt, exactly as for timeouts, connection errors and
429s: the call retries until a 200 response arrives (returning its parse
result after `m + 1` requests) and returns `None` only once all `max_retries`
attempts are spent. -/
theorem make_request_retry_policy {α : Type} (max_retries m : ℕ)
    (outcomes : ℕ → HttpResult α) (body : Option α) :
    (m < max_retries → (∀ j, j < m → retriable (outcomes j)) →
        outcomes m = .response 200 body →
        make_request max_retries outcomes = (body, m + 1)) ∧
      ((∀ j, j < max_retries → retriable (outcomes j)) →
        make_request max_retries outcomes = (none, max_retries)) := by
  constructor
  · intro hm hr hsucc
    have := makeRequestAux_success outcomes body max_retries 0 m hm
      (by simpa using hr) (by simpa using hsucc)
    simpa [make_request] using this
  · intro hr
    have := makeRequestAux_exhaust outcomes max_retries 0 (by simpa using hr)
    simpa [make_request] using this

/-- Concrete instantiation of the amended C3: on the refuting schedule the
client consumes the 500, retries, and returns the second attempt's payload. -/
theorem make_request_retry_policy_witness :
    make_request 3 ocCex = (some 7, 2) :=
  (make_request_retry_policy 3 1 ocCex (some 7)).1 (by omega)
    (fun j hj => by
      have hj0 : j = 0 := by omega
      subst hj0
      simp [ocCex, retriable])
    (by rfl)

/-! ## Offender distribution across a district's neighborhoods
`SafetyAnalyzer.collect_safety_data`, step 5
(src/analysis/safety_analyzer.py:160-192): offender rows are aggregated per
district (`district_offenders`, a dict built row by row, later rows
overwriting earlier ones), the keyset's neighborhoods are counted per
district (`district_dong_count`), and every keyset entry whose district has
an offender record gets `total // dong_count`; other entries are untouched
(their count stays at the initialized 0). -/

/-- One entry of the `dong_data` keyset (district, neighborhood, and the
facility counts accumulated by steps 1-4; `sexual_offender_count` is 0 until
step 5 runs). -/
structure DongEntry where
  district : String
  dong : String
  cctv_count : ℕ := 0
  streetlight_count : ℕ := 0
  police_station_count : ℕ := 0
  female_safety_house_count : ℕ := 0
  sexual_offender_count : ℕ := 0
  delivery_box_count : ℕ := 0
  deriving DecidableEq

/-- The `district_offenders` dict: per-district totals from the aggregation
query, later rows overwriting earlier ones. -/
def districtOffenders (offender_results : List (String × ℕ)) (district : String) :
    Option ℕ :=
  List.lookup district offender_results.reverse

/-- The `district_dong_count` tally: how many keyset entries carry the
district. -/
def districtDongCount (entries : List DongEntry) (district : String) : ℕ :=
  (entries.filter (fun e => e.district == district)).length

/-- The step-5 update of one keyset entry. -/
def updateOffenderCount (entries : List DongEntry)
    (offender_results : List (String × ℕ)) (e : DongEntry) : DongEntry :=
  match districtOffenders offender_results e.district with
  | some total =>
    { e with sexual_offender_count := total / districtDongCount entries e.district }
  | none => e

/-- Step 5 over the whole keyset. -/
def distributeOffenders (entries : List DongEntry)
    (offender_results : List (String × ℕ)) : List DongEntry :=
  entries.map (updateOffenderCount entries offender_results)

/-- **C9**: every keyset entry whose district has an offender total gets
`total / (number of the district's keyset entries)` (floor division), so two
entries of the same district receive identical counts; an entry whose
district has no offender record is left unchanged (keeping its 0). -/
theorem offender_distribution (entries : List DongEntry)
    (offender_results : List (String × ℕ)) (e₁ e₂ : DongEntry)
    (h₁ : e₁ ∈ entries) (_h₂ : e₂ ∈ entries) (hd : e₁.district = e₂.district) :
    updateOffenderCount entries offender_results e₁ ∈
        distributeOffenders entries offender_results ∧
      (∀ total, districtOffenders offender_results e₁.district = some total →
        (updateOffenderCount entries offender_results e₁).sexual_offender_count =
            total / districtDongCount entries e₁.district ∧
          (updateOffenderCount entries offender_results e₁).sexual_offender_count =
            (updateOffenderCount entries offender_results e₂).sexual_offender_count) ∧
      (districtOffenders offender_results e₁.district = none →
        updateOffenderCount entries offender_results e₁ = e₁) := by
  refine ⟨List.mem_map_of_mem _ h₁, ?_, ?_⟩
  · intro total htot
    have htot₂ : districtOffenders offender_results e₂.district = some total := by
      rw [← hd]; exact htot
    constructor
    · simp [updateOffenderCount, htot]
    · simp [updateOffenderCount, htot, htot₂, hd]
  · intro hnone
    simp [updateOffenderCount, hnone]

/-- Concrete instantiation of C9: 강남구 has total 7 over two keyset entries
(each gets 3); 마포구 has no record (stays 0). -/
theorem offender_distribution_witness :
    updateOffenderCount
        [⟨"강남구", "역삼동", 4, 0, 0, 0, 0, 0⟩, ⟨"강남구", "삼성동", 2, 0, 0, 0, 0, 0⟩,
         ⟨"마포구", "서교동", 1, 0, 0, 0, 0, 0⟩] [("강남구", 7)]
        ⟨"강남구", "역삼동", 4, 0, 0, 0, 0, 0⟩ ∈
      distributeOffenders
        [⟨"강남구", "역삼동", 4, 0, 0, 0, 0, 0⟩, ⟨"강남구", "삼성동", 2, 0, 0, 0, 0, 0⟩,
         ⟨"마포구", "서교동", 1, 0, 0, 0, 0, 0⟩] [("강남구", 7)] ∧
    (∀ total,
      districtOffenders [("강남구", 7)]
          (DongEntry.district ⟨"강남구", "역삼동", 4, 0, 0, 0, 0, 0⟩) = some total →
      (updateOffenderCount
          [⟨"강남구", "역삼동", 4, 0, 0, 0, 0, 0⟩, ⟨"강남구", "삼성동", 2, 0, 0, 0, 0, 0⟩,
           ⟨"마포구", "서교동", 1, 0, 0, 0, 0, 0⟩] [("강남구", 7)]
          ⟨"강남구", "역삼동", 4, 0, 0, 0, 0, 0⟩).sexual_offender_count =
          total / districtDongCount
            [⟨"강남구", "역삼동", 4, 0, 0, 0, 0, 0⟩, ⟨"강남구", "삼성동", 2, 0, 0, 0, 0, 0⟩,
             ⟨"마포구", "서교동", 1, 0, 0, 0, 0, 0⟩]
            (DongEntry.district ⟨"강남구", "역삼동", 4, 0, 0, 0, 0, 0⟩) ∧
        (updateOffenderCount
            [⟨"강남구", "역삼동", 4, 0, 0, 0, 0, 0⟩, ⟨"강남구", "삼성동", 2, 0, 0, 0, 0, 0⟩,
             ⟨"마포구", "서교동", 1, 0, 0, 0, 0, 0⟩] [("강남구", 7)]
            ⟨"강남구", "역삼동", 4, 0, 0, 0, 0, 0⟩).sexual_offender_count =
          (updateOffenderCount
              [⟨"강남구", "역삼동", 4, 0, 0, 0, 0, 0⟩, ⟨"강남구", "삼성동", 2, 0, 0, 0, 0, 0⟩,
               ⟨"마포구", "서교동", 1, 0, 0, 0, 0, 0⟩] [("강남구", 7)]
              ⟨"강남구", "삼성동", 2, 0, 0, 0, 0, 0⟩).sexual_offender_count) ∧
    (districtOffenders [("강남구", 7)]
        (DongEntry.district ⟨"강남구", "역삼동", 4, 0, 0, 0, 0, 0⟩) = none →
      updateOffenderCount
          [⟨"강남구", "역삼동", 4, 0, 0, 0, 0, 0⟩, ⟨"강남구", "삼성동", 2, 0, 0, 0, 0, 0⟩,
           ⟨"마포구", "서교동", 1, 0, 0, 0, 0, 0⟩] [("강남구", 7)]
          ⟨"강남구", "역삼동", 4, 0, 0, 0, 0, 0⟩ =
        ⟨"강남구", "역삼동", 4, 0, 0, 0, 0, 0⟩) :=
  offender_distribution _ _ _ _ (by decide) (by decide) rfl

/-! ## Reverse geocoding call
`KakaoGeocoder.coordinate_to_address` (src/utils/geocoding.py:39-137):
returns `None` when the API key is missing or the daily limit is reached;
issues `self.session.get(...)` and `response.raise_for_status()`; parses the
JSON and returns the first document (or `None` when `documents` is empty);
`except requests.exceptions.RequestException` executes
`if response.status_code == 429: ...` before returning `None`, and
`except Exception` returns `None`.  Crucially, when `session.get` itself
raises (timeout / connection error), the local `response` was never assigned,
so the handler's `response.status_code` raises `UnboundLocalError`, which no
surrounding handler catches. -/

/-- What the HTTP layer does on the single geocoding request.  `bodyDocs =
none` on a delivered response models a JSON decode error (caught by the
generic handler). -/
inductive GeoHttp (δ : Type) where
  | raisedNoResponse
  | delivered (status : ℕ) (bodyDocs : Option (List δ))

/-- One invocation's environment: API-key presence, daily-limit headroom, and
the HTTP layer's behaviour. -/
structure GeoCall (δ : Type) where
  api_key_configured : Bool
  under_daily_limit : Bool
  http : GeoHttp δ

/-- A Python call that either returns a value or lets an exception escape. -/
inductive PyResult (α : Type) where
  | ok (value : α)
  | raised (exn : String)
  deriving DecidableEq

/-- `KakaoGeocoder.coordinate_to_address`.  `raise_for_status` raises
`HTTPError` for status ≥ 400; the `RequestException` handler then runs with
`response` bound and returns `None`.  When the request itself raised, the
handler dereferences the unassigned local `response`. -/
def coordinate_to_address {δ : Type} (call : GeoCall δ) : PyResult (Option δ) :=
  if call.api_key_configured = false then .ok none
  else if call.under_daily_limit = false then .ok none
  else
    match call.http with
    | .raisedNoResponse => .raised "UnboundLocalError"
    | .delivered status bodyDocs =>
      if 400 ≤ status then .ok none
      else
        match bodyDocs with
        | none => .ok none
        | some [] => .ok none
        | some (doc :: _) => .ok (some doc)

/-- **C7**: on a network timeout or connection error — `session.get` raising
before `response` is assigned — the `RequestException` handler's
`response.status_code` access raises `UnboundLocalError` and the exception
escapes to the caller, contradicting the claim that every failure yields
`None`.  The other failure modes do return `None` as claimed. -/
theorem coordinate_to_address_timeout_escapes :
    coordinate_to_address (δ := ℕ) ⟨true, true, .raisedNoResponse⟩ =
        .raised "UnboundLocalError" ∧
      coordinate_to_address (δ := ℕ) ⟨false, true, .raisedNoResponse⟩ = .ok none ∧
      coordinate_to_address (δ := ℕ) ⟨true, false, .raisedNoResponse⟩ = .ok none ∧
      coordinate_to_address (δ := ℕ) ⟨true, true, .delivered 403 (some [0])⟩ =
        .ok none ∧
      coordinate_to_address (δ := ℕ) ⟨true, true, .delivered 200 none⟩ = .ok none ∧
      coordinate_to_address (δ := ℕ) ⟨true, true, .delivered 200 (some [])⟩ =
        .ok none ∧
      coordinate_to_address (δ := ℕ) ⟨true, true, .delivered 200 (some [5])⟩ =
        .ok (some 5) := by
  refine ⟨rfl, rfl, rfl, ?_, rfl, rfl, ?_⟩ <;> decide

/-! ## CPTED scoring engine
`CPTEDCalculator` (src/safety_score/cpted_calculator.py).  Counts are Python
ints (`ℕ`); the maintenance/activity factors, area size and scores are Python
floats, modelled as exact reals. -/

/-- The `SafetyFactors` dataclass (fields and defaults as in the source). -/
structure SafetyFactors where
  cctv_count : ℕ := 0
  streetlight_count : ℕ := 0
  sexual_offender_count : ℕ := 0
  police_station_count : ℕ := 0
  female_safety_house_count : ℕ := 0
  maintenance_score : ℝ := 0.5
  delivery_box_count : ℕ := 0
  activity_score : ℝ := 0.5

noncomputable section

/-- `calculate_natural_surveillance_score`: CCTV 50%, streetlights 30%, base
score 20 at 20%. -/
def calculate_natural_surveillance_score (factors : SafetyFactors)
    (area_size : ℝ) : ℝ :=
  let cctv_density := (factors.cctv_count : ℝ) / area_size
  let cctv_score := min 100 (cctv_density * 10)
  let streetlight_density := (factors.streetlight_count : ℝ) / area_size
  let streetlight_score := min 100 (streetlight_density * 1)
  let base_score : ℝ := 20
  cctv_score * 0.5 + streetlight_score * 0.3 + base_score * 0.2

/-- The body of `calculate_access_control_score` as a function of the
offender density: 100 at density 0, otherwise `max(0, 100·e^(−density/10))`. -/
def densityScore (offender_density : ℝ) : ℝ :=
  if offender_density = 0 then 100
  else max 0 (100 * Real.exp (-offender_density / 10))

/-- `calculate_access_control_score`. -/
def calculate_access_control_score (factors : SafetyFactors)
    (area_size : ℝ) : ℝ :=
  densityScore ((factors.sexual_offender_count : ℝ) / area_size)

/-- `calculate_territoriality_score`: police 40%, safety houses 30%, base
score 30 at 30%. -/
def calculate_territoriality_score (factors : SafetyFactors)
    (area_size : ℝ) : ℝ :=
  let police_score := min 100 ((factors.police_station_count : ℝ) / area_size * 100)
  let safety_house_score :=
    min 100 ((factors.female_safety_house_count : ℝ) / area_size * 20)
  let base_score : ℝ := 30
  police_score * 0.4 + safety_house_score * 0.3 + base_score * 0.3

/-- `calculate_maintenance_score`. -/
def calculate_maintenance_score (factors : SafetyFactors) : ℝ :=
  let base_score := factors.maintenance_score * 100
  let facility_bonus :=
    min 20 (((factors.cctv_count : ℝ) + (factors.streetlight_count : ℝ)) * 0.1)
  min 100 (base_score + facility_bonus)

/-- `calculate_activity_support_score`. -/
def calculate_activity_support_score (factors : SafetyFactors)
    (area_size : ℝ) : ℝ :=
  let delivery_score := min 100 ((factors.delivery_box_count : ℝ) / area_size * 10)
  let area_bonus := max 0 (20 - area_size * 5)
  let activity_base_score := factors.activity_score * 100 + area_bonus
  min 100 (delivery_score * 0.3 + activity_base_score * 0.7)

/-- The weighted CPTED total of `calculate_safety_score` (weights 0.35 /
0.25 / 0.20 / 0.10 / 0.10). -/
def weighted_total (factors : SafetyFactors) (area_size : ℝ) : ℝ :=
  calculate_natural_surveillance_score factors area_size * 0.35 +
  calculate_access_control_score factors area_size * 0.25 +
  calculate_territoriality_score factors area_size * 0.20 +
  calculate_maintenance_score factors * 0.10 +
  calculate_activity_support_score factors area_size * 0.10

/-- `total_facilities` of `calculate_safety_score`. -/
def total_facilities (factors : SafetyFactors) : ℕ :=
  factors.cctv_count + factors.streetlight_count +
  factors.police_station_count + factors.female_safety_house_count +
  factors.delivery_box_count

/-- The clamped `final_score` of `calculate_safety_score` before rounding:
weighted total, plus the facility-density bonus (≤ 15), minus the offender
penalty (≤ 10), clamped to [0, 100]. -/
def final_score (factors : SafetyFactors) (area_size : ℝ) : ℝ :=
  let facility_density_bonus :=
    min 15 ((total_facilities factors : ℝ) / area_size * 2)
  let offender_penalty := min 10 ((factors.sexual_offender_count : ℝ) * 2)
  max 0 (min 100 (weighted_total factors area_size + facility_density_bonus -
    offender_penalty))

/-- `CPTEDCalculator.GRADE_THRESHOLDS` in its dict insertion order. -/
def GRADE_THRESHOLDS : List (String × ℝ) :=
  [("A", 60), ("B", 50), ("C", 40), ("D", 30), ("E", 0)]

/-- `get_safety_grade` in its default (fixed-threshold) mode: the first grade
of the table whose threshold the score meets, falling back to `E`. -/
def get_safety_grade (score : ℝ) : String :=
  match GRADE_THRESHOLDS.find? (fun p => decide (p.2 ≤ score)) with
  | some p => p.1
  | none => "E"

/-- Python `round(x, 2)`: nearest multiple of 1/100 (the claims at hand never
sit on a tie, where Python rounds to even and `round` rounds up). -/
def round2 (x : ℝ) : ℝ := (round (x * 100) : ℤ) / 100

/-- The `SafetyScore` result record (the timestamp field is dropped). -/
structure SafetyScore where
  total_score : ℝ
  natural_surveillance : ℝ
  access_control : ℝ
  territoriality : ℝ
  maintenance : ℝ
  activity_support : ℝ
  grade : String

/-- `CPTEDCalculator.calculate_safety_score`: note the grade is computed from
the unrounded `final_score`, while `total_score` stores its rounding. -/
def calculate_safety_score (factors : SafetyFactors) (area_size : ℝ) :
    SafetyScore where
  total_score := round2 (final_score factors area_size)
  natural_surveillance := round2 (calculate_natural_surveillance_score factors area_size)
  access_control := round2 (calculate_access_control_score factors area_size)
  territoriality := round2 (calculate_territoriality_score factors area_size)
  maintenance := round2 (calculate_maintenance_score factors)
  activity_support := round2 (calculate_activity_support_score factors area_size)
  grade := get_safety_grade (final_score factors area_size)

/-- The spec's fixed threshold table, stated as the claim states it:
A if ≥ 60, B if ≥ 50, C if ≥ 40, D if ≥ 30, else E. -/
def specGrade (score : ℝ) : String :=
  if 60 ≤ score then "A"
  else if 50 ≤ score then "B"
  else if 40 ≤ score then "C"
  else if 30 ≤ score then "D"
  else "E"

theorem get_safety_grade_eq_specGrade (score : ℝ) :
    get_safety_grade score = specGrade score := by
  unfold get_safety_grade specGrade GRADE_THRESHOLDS
  by_cases h60 : (60 : ℝ) ≤ score
  · simp [List.find?, h60]
  · by_cases h50 : (50 : ℝ) ≤ score
    · simp [List.find?, h60, h50]
    · by_cases h40 : (40 : ℝ) ≤ score
      · simp [List.find?, h60, h50, h40]
      · by_cases h30 : (30 : ℝ) ≤ score
        · simp [List.find?, h60, h50, h40, h30]
        · by_cases h0 : (0 : ℝ) ≤ score
          · simp [List.find?, h60, h50, h40, h30, h0]
          · simp [List.find?, h60, h50, h40, h30, h0]

theorem final_score_mem_Icc (factors : SafetyFactors) (area_size : ℝ) :
    0 ≤ final_score factors area_size ∧ final_score factors area_size ≤ 100 := by
  unfold final_score
  refine ⟨le_max_left 0 _, max_le (by norm_num) ?_⟩
  exact min_le_left 100 _

theorem round2_mem_Icc {x : ℝ} (h0 : 0 ≤ x) (h1 : x ≤ 100) :
    0 ≤ round2 x ∧ round2 x ≤ 100 := by
  unfold round2
  have hlo : (0 : ℤ) ≤ round (x * 100) := by
    rw [round_eq]
    apply Int.floor_nonneg.mpr
    nlinarith
  have hhi : round (x * 100) ≤ 10000 := by
    rw [round_eq]
    have : Int.floor (x * 100 + 1 / 2) < 10001 := by
      apply Int.floor_lt.mpr
      push_cast
      nlinarith
    omega
  constructor
  · apply div_nonneg _ (by norm_num)
    exact_mod_cast hlo
  · rw [div_le_iff₀ (by norm_num)]
    have h : ((round (x * 100) : ℤ) : ℝ) ≤ ((10000 : ℤ) : ℝ) := by exact_mod_cast hhi
    calc ((round (x * 100) : ℤ) : ℝ) ≤ ((10000 : ℤ) : ℝ) := h
      _ = 100 * 100 := by norm_num

/-- **C1** is false as stated: the grade is computed from the unrounded final
score while `total_score` is rounded to two decimals, and rounding can cross
a grade boundary.  With 5 cameras, maintenance factor 0.1946, activity factor
0 and area 1 km², the final score is 49.996: the engine grades it `C`
(< 50), but the threshold table applied to the stored
`total_score = 50.0` yields `B`. -/
def gradeCexFactors : SafetyFactors :=
  { cctv_count := 5, maintenance_score := 973 / 5000, activity_score := 0 }

theorem grade_vs_total_score_counterexample :
    (calculate_safety_score gradeCexFactors 1).grade = "C" ∧
      specGrade ((calculate_safety_score gradeCexFactors 1).total_score) = "B" := by
  have hfs : final_score gradeCexFactors 1 = 12499 / 250 := by
    unfold final_score weighted_total total_facilities
      calculate_natural_surveillance_score calculate_access_control_score
      densityScore calculate_territoriality_score calculate_maintenance_score
      calculate_activity_support_score gradeCexFactors
    norm_num [min_def, max_def]
  have hts : (calculate_safety_score gradeCexFactors 1).total_score = 50 := by
    show round2 (final_score gradeCexFactors 1) = 50
    rw [hfs]
    unfold round2
    rw [round_eq]
    have hfl : Int.floor ((12499 / 250 : ℝ) * 100 + 1 / 2) = 5000 := by
      apply Int.floor_eq_iff.mpr
      constructor <;> norm_num
    rw [hfl]
    norm_num
  constructor
  · show get_safety_grade (final_score gradeCexFactors 1) = "C"
    rw [get_safety_grade_eq_specGrade, hfs]
    unfold specGrade
    norm_num
  · rw [hts]
    unfold specGrade
    norm_num

/-- **C1** (amended): for every valid `SafetyFactors` (factors in [0, 1]) and
positive area, `calculate_safety_score` returns a `total_score` in [0, 100],
and the returned grade is the fixed threshold table (A ≥ 60, B ≥ 50, C ≥ 40,
D ≥ 30, else E) applied to the *unrounded* final score; `total_score` is that
final score rounded to two decimals, which can cross a grade boundary. -/
theorem calculate_safety_score_range_and_grade (factors : SafetyFactors)
    (area_size : ℝ) (_ha : 0 < area_size)
    (_hm0 : 0 ≤ factors.maintenance_score) (_hm1 : factors.maintenance_score ≤ 1)
    (_hc0 : 0 ≤ factors.activity_score) (_hc1 : factors.activity_score ≤ 1) :
    0 ≤ (calculate_safety_score factors area_size).total_score ∧
      (calculate_safety_score factors area_size).total_score ≤ 100 ∧
      (calculate_safety_score factors area_size).grade =
        specGrade (final_score factors area_size) := by
  have hb := final_score_mem_Icc factors area_size
  have hr := round2_mem_Icc hb.1 hb.2
  exact ⟨hr.1, hr.2, get_safety_grade_eq_specGrade _⟩

/-- Concrete instantiation of the amended C1 at the default factors and a
1 km² area. -/
theorem calculate_safety_score_range_and_grade_witness :
    0 ≤ (calculate_safety_score ⟨0, 0, 0, 0, 0, 1/2, 0, 1/2⟩ 1).total_score ∧
      (calculate_safety_score ⟨0, 0, 0, 0, 0, 1/2, 0, 1/2⟩ 1).total_score ≤ 100 ∧
      (calculate_safety_score ⟨0, 0, 0, 0, 0, 1/2, 0, 1/2⟩ 1).grade =
        specGrade (final_score ⟨0, 0, 0, 0, 0, 1/2, 0, 1/2⟩ 1) :=
  calculate_safety_score_range_and_grade ⟨0, 0, 0, 0, 0, 1/2, 0, 1/2⟩ 1
    (by norm_num) (by norm_num) (by norm_num) (by norm_num) (by norm_num)

/-- **C6**: the access-control sub-score is `densityScore` of the offender
density; it is exactly 100 at density 0 and `100·e^(−density/10)` elsewhere
(the `max` floor never bites since the exponential is positive), strictly
decreasing on densities > 0, and tends to 0 as the density grows without
bound. -/
theorem access_control_score_spec (factors : SafetyFactors) (area_size : ℝ)
    (_ha : 0 < area_size) :
    calculate_access_control_score factors area_size =
        densityScore ((factors.sexual_offender_count : ℝ) / area_size) ∧
      densityScore 0 = 100 ∧
      (∀ d : ℝ, d ≠ 0 → densityScore d = 100 * Real.exp (-d / 10)) ∧
      StrictAntiOn densityScore (Set.Ioi 0) ∧
      Filter.Tendsto densityScore Filter.atTop (nhds 0) := by
  have hval : ∀ d : ℝ, d ≠ 0 → densityScore d = 100 * Real.exp (-d / 10) := by
    intro d hd
    unfold densityScore
    rw [if_neg hd]
    exact max_eq_right (by positivity)
  refine ⟨rfl, by simp [densityScore], hval, ?_, ?_⟩
  · intro d₁ h₁ d₂ h₂ hlt
    rw [hval d₁ (ne_of_gt (Set.mem_Ioi.mp h₁)),
      hval d₂ (ne_of_gt (Set.mem_Ioi.mp h₂))]
    apply mul_lt_mul_of_pos_left _ (by norm_num : (0 : ℝ) < 100)
    exact Real.exp_lt_exp.mpr (by linarith)
  · have hev : (fun d : ℝ => 100 * Real.exp (-d / 10)) =ᶠ[Filter.atTop]
        densityScore := by
      filter_upwards [Filter.eventually_ge_atTop (1 : ℝ)] with d hd
      exact (hval d (by linarith)).symm
    have h₁ : Filter.Tendsto (fun d : ℝ => -d / 10) Filter.atTop Filter.atBot :=
      Filter.Tendsto.atBot_div_const (by norm_num) Filter.tendsto_neg_atTop_atBot
    have h₂ := Real.tendsto_exp_atBot.comp h₁
    have h₃ := h₂.const_mul (100 : ℝ)
    rw [mul_zero] at h₃
    exact h₃.congr' hev

/-- Concrete instantiation of C6 at the default factors and a 1 km² area. -/
theorem access_control_score_spec_witness :
    calculate_access_control_score ⟨0, 0, 0, 0, 0, 1/2, 0, 1/2⟩ 1 =
        densityScore (((SafetyFactors.sexual_offender_count
          ⟨0, 0, 0, 0, 0, 1/2, 0, 1/2⟩ : ℕ) : ℝ) / 1) ∧
      densityScore 0 = 100 ∧
      (∀ d : ℝ, d ≠ 0 → densityScore d = 100 * Real.exp (-d / 10)) ∧
      StrictAntiOn densityScore (Set.Ioi 0) ∧
      Filter.Tendsto densityScore Filter.atTop (nhds 0) :=
  access_control_score_spec ⟨0, 0, 0, 0, 0, 1/2, 0, 1/2⟩ 1 (by norm_num)

/-! ## Simulated-data substitution in the dong-level calculator
`DongSafetyCalculator.calculate_all_dong_safety`
(src/safety_score/dong_safety_calculator.py:219-252): after querying the
`SafetyFactors` of a neighborhood, if the camera, streetlight, police and
safety-house counts are all zero (the offender and delivery-box counts are
not consulted), all eight fields are replaced by draws from `random` seeded
with `hash(f"{district}_{dong}")`.  Python's `hash` and the seeded Mersenne
Twister are deterministic functions of their argument within a run; they are
modelled as function parameters `pyHash` and `draws` (the latter mapping a
seed to the drawn tuple). -/

/-- The tuple of values drawn from the seeded generator: six `randint`
counts, then the two `uniform` factor draws. -/
structure SimDraws where
  cctv_count : ℕ
  streetlight_count : ℕ
  police_station_count : ℕ
  female_safety_house_count : ℕ
  sexual_offender_count : ℕ
  delivery_box_count : ℕ
  maintenance_score : ℝ
  activity_score : ℝ

/-- The guard of the substitution branch. -/
def needsSimulation (factors : SafetyFactors) : Bool :=
  factors.cctv_count == 0 && factors.streetlight_count == 0 &&
    factors.police_station_count == 0 && factors.female_safety_house_count == 0

/-- The seed string `f"{district}_{dong}"`. -/
def dongKey (district dong : String) : String := district ++ "_" ++ dong

/-- The fully synthetic `SafetyFactors` produced from the draws of a seed. -/
def simulatedFactors (draws : Int → SimDraws) (seed : Int) : SafetyFactors where
  cctv_count := (draws seed).cctv_count
  streetlight_count := (draws seed).streetlight_count
  sexual_offender_count := (draws seed).sexual_offender_count
  police_station_count := (draws seed).police_station_count
  female_safety_house_count := (draws seed).female_safety_house_count
  maintenance_score := (draws seed).maintenance_score
  delivery_box_count := (draws seed).delivery_box_count
  activity_score := (draws seed).activity_score

/-- The per-neighborhood substitution step of `calculate_all_dong_safety`. -/
def applySimulation (pyHash : String → Int) (draws : Int → SimDraws)
    (district dong : String) (factors : SafetyFactors) : SafetyFactors :=
  if needsSimulation factors then
    simulatedFactors draws (pyHash (dongKey district dong))
  else factors

/-- **C4**: synthetic values are substituted iff the camera, streetlight,
police and safety-house counts are all zero — the offender and delivery-box
counts are irrelevant to the guard — and the substituted values are a
function of the seed `pyHash (district ++ "_" ++ dong)` alone, so two passes
over the same (district, dong) produce identical substituted values. -/
theorem dong_simulation_substitution (pyHash : String → Int)
    (draws : Int → SimDraws) (district dong : String)
    (factors factors' : SafetyFactors) (n m : ℕ) :
    (needsSimulation factors = true ↔
        (factors.cctv_count = 0 ∧ factors.streetlight_count = 0 ∧
          factors.police_station_count = 0 ∧
          factors.female_safety_house_count = 0)) ∧
      needsSimulation
          { factors with sexual_offender_count := n, delivery_box_count := m } =
        needsSimulation factors ∧
      (needsSimulation factors = true →
        applySimulation pyHash draws district dong factors =
          simulatedFactors draws (pyHash (dongKey district dong))) ∧
      (needsSimulation factors = false →
        applySimulation pyHash draws district dong factors = factors) ∧
      (needsSimulation factors = true → needsSimulation factors' = true →
        applySimulation pyHash draws district dong factors =
          applySimulation pyHash draws district dong factors') := by
  refine ⟨?_, ?_, ?_, ?_, ?_⟩
  · simp [needsSimulation, and_assoc]
  · simp [needsSimulation]
  · intro h
    unfold applySimulation
    rw [if_pos h]
  · intro h
    unfold applySimulation
    rw [h]
    rfl
  · intro h h'
    unfold applySimulation
    rw [if_pos h, if_pos h']

/-- Concrete instantiation of C4: with all four guard counts zero (offender
and delivery-box counts nonzero) the queried factors are replaced by the
seed-determined draws. -/
theorem dong_simulation_substitution_witness :
    applySimulation (fun _ => 0) (fun _ => ⟨1, 2, 3, 4, 5, 6, 1/2, 1/2⟩)
        "강남구" "역삼동" ⟨0, 0, 9, 0, 0, 1/2, 8, 1/2⟩ =
      simulatedFactors (fun _ => ⟨1, 2, 3, 4, 5, 6, 1/2, 1/2⟩)
        ((fun _ : String => (0 : Int)) (dongKey "강남구" "역삼동")) :=
  (dong_simulation_substitution (fun _ => 0)
    (fun _ => ⟨1, 2, 3, 4, 5, 6, 1/2, 1/2⟩) "강남구" "역삼동"
    ⟨0, 0, 9, 0, 0, 1/2, 8, 1/2⟩ ⟨0, 0, 9, 0, 0, 1/2, 8, 1/2⟩ 0 0).2.2.1 rfl

end

end SafetyServer
